import Mathlib

/-!
Verification of the TeachingReact demo application.

Each section embeds one demo component's local state and event handlers as
pure Lean functions, translated from the JSX sources, and proves the
behavioural properties stated for that demo.
-/

namespace TeachingReact

/-! ## DataFetchingEffect (useEffect data-fetching demo)

State: `user` (initially null), `loading` (initially false), `userId`
(initially 1).  The effect logs, sets `loading := true`, issues the fetch,
and on success stores the decoded user and clears `loading`; the `catch`
branch logs the error and also clears `loading`.  There is no error state
in the component. -/

/-- The opaque user record consumed only for display: name, email and a
nested optional company name. -/
structure UserData where
  name : String
  email : String
  companyName : Option String
  deriving Repr, DecidableEq

/-- Outcome of the fetch pipeline: a decoded user record, a rejection of
`response.json()` (invalid body), or a rejected `fetch` (network failure).
Both failure outcomes reach the same `catch` handler. -/
inductive FetchOutcome where
  | ok (data : UserData)
  | jsonError
  | networkError
  deriving Repr, DecidableEq

/-- A console log entry: `console.log` versus `console.error`. -/
inductive LogEntry where
  | info (msg : String)
  | errorMsg (msg : String)
  deriving Repr, DecidableEq

/-- Local state of `DataFetchingEffect`, plus the console log. -/
structure DFState where
  user : Option UserData
  loading : Bool
  userId : Nat
  log : List LogEntry
  deriving Repr, DecidableEq

/-- Source: `useState(null)`, `useState(false)`, `useState(1)`. -/
def DFState.init : DFState :=
  { user := none, loading := false, userId := 1, log := [] }

/-- What the component renders: the `Loading...` paragraph, the user card,
or nothing.  The JSX has no error branch at all. -/
inductive RenderView where
  | loadingView
  | userCard (u : UserData)
  | empty
  deriving Repr, DecidableEq

/-- Source: `{loading ? <p>Loading...</p> : user ? <div class=user-card>... : null}` -/
def render (s : DFState) : RenderView :=
  if s.loading then RenderView.loadingView
  else
    match s.user with
    | some u => RenderView.userCard u
    | none => RenderView.empty

/-- The `useEffect` body of `DataFetchingEffect`: log the fetch, set
`loading := true`, then either the `.then` chain (`setUser(data)`,
`setLoading(false)`) or the `.catch` handler (`console.error`,
`setLoading(false)`), depending on how the fetch resolves. -/
def runFetchEffect (s : DFState) (outcome : FetchOutcome) : DFState :=
  let s1 := { s with loading := true,
                     log := s.log ++ [LogEntry.info "Fetching user"] }
  match outcome with
  | FetchOutcome.ok d =>
      { s1 with user := some d, loading := false,
                log := s1.log ++ [LogEntry.info "User fetched"] }
  | FetchOutcome.jsonError =>
      { s1 with loading := false,
                log := s1.log ++ [LogEntry.errorMsg "Error"] }
  | FetchOutcome.networkError =>
      { s1 with loading := false,
                log := s1.log ++ [LogEntry.errorMsg "Error"] }

/-- C1 counterexample: at the initial state, a failing fetch does NOT leave
the loading flag true — the `catch` handler calls `setLoading(false)`, so
the claim that the loading flag remains true forever is false. -/
theorem fetch_failure_loading_not_stuck_cx :
    ¬ ((runFetchEffect DFState.init FetchOutcome.networkError).loading = true) := by
  decide

/-- C1 (amended): when the fetch fails, the failure is caught and written
to the debug log only — an error entry is appended, the stored user value
is untouched and no error view exists to be shown — but the loading flag
is cleared back to false rather than remaining true. -/
theorem fetch_failure_logged_and_loading_cleared :
    ∀ s : DFState,
      ((runFetchEffect s FetchOutcome.networkError).log =
          s.log ++ [LogEntry.info "Fetching user", LogEntry.errorMsg "Error"] ∧
        (runFetchEffect s FetchOutcome.networkError).user = s.user ∧
        (runFetchEffect s FetchOutcome.networkError).loading = false ∧
        render (runFetchEffect s FetchOutcome.networkError) ≠ RenderView.loadingView) ∧
      ((runFetchEffect s FetchOutcome.jsonError).log =
          s.log ++ [LogEntry.info "Fetching user", LogEntry.errorMsg "Error"] ∧
        (runFetchEffect s FetchOutcome.jsonError).user = s.user ∧
        (runFetchEffect s FetchOutcome.jsonError).loading = false) := by
  intro s
  refine ⟨⟨by simp [runFetchEffect], rfl, rfl, ?_⟩, by simp [runFetchEffect], rfl, rfl⟩
  cases h : s.user <;> simp [runFetchEffect, render, h]

/-- C2: every failing or invalid fetch response leaves the previously
displayed user value unchanged and clears the loading flag back to false,
so the loading view is not left showing. -/
theorem fetch_failure_preserves_user_and_clears_loading :
    ∀ s : DFState,
      ((runFetchEffect s FetchOutcome.jsonError).user = s.user ∧
        (runFetchEffect s FetchOutcome.jsonError).loading = false ∧
        render (runFetchEffect s FetchOutcome.jsonError) ≠ RenderView.loadingView) ∧
      ((runFetchEffect s FetchOutcome.networkError).user = s.user ∧
        (runFetchEffect s FetchOutcome.networkError).loading = false ∧
        render (runFetchEffect s FetchOutcome.networkError) ≠ RenderView.loadingView) := by
  intro s
  refine ⟨⟨rfl, rfl, ?_⟩, rfl, rfl, ?_⟩ <;>
    · cases h : s.user <;> simp [runFetchEffect, render, h]

/-! ## StateDemo (useState demo in UseRefDemo.jsx)

Six pieces of local state: a counter, a text input, a boolean toggle, a
user object, a todo list with its input, and two color values. -/

/-- A todo record: `{ id, text, completed }`. -/
structure Todo where
  id : Nat
  text : String
  completed : Bool
  deriving Repr, DecidableEq

/-- The user object of StateDemo: `{ name, age, email }`. -/
structure SDUser where
  name : String
  age : Nat
  email : String
  deriving Repr, DecidableEq

/-- The whole local state of `StateDemo`. -/
structure StateDemoState where
  count : Int
  text : String
  isOn : Bool
  user : SDUser
  todos : List Todo
  newTodo : String
  bgColor : String
  textColor : String
  deriving Repr, DecidableEq

/-- The six `useState` initialisers of `StateDemo`. -/
def StateDemoState.init : StateDemoState :=
  { count := 0
    text := ""
    isOn := false
    user := { name := "John Doe", age := 25, email := "john@example.com" }
    todos := [{ id := 1, text := "Learn React", completed := true },
              { id := 2, text := "Master State", completed := false }]
    newTodo := ""
    bgColor := "#e3f2fd"
    textColor := "#1976d2" }

/-- Model of JavaScript's `String.prototype.trim`: drop leading and
trailing whitespace characters. -/
def jsTrim (s : String) : String :=
  String.mk (((s.data.dropWhile Char.isWhitespace).reverse.dropWhile
    Char.isWhitespace).reverse)

namespace StateDemo

/-- Source: `setCount(count + 1)` -/
def incrementCount (s : StateDemoState) : StateDemoState :=
  { s with count := s.count + 1 }

/-- Source: `setCount(count - 1)` -/
def decrementCount (s : StateDemoState) : StateDemoState :=
  { s with count := s.count - 1 }

/-- Source: `setCount(0)` -/
def resetCount (s : StateDemoState) : StateDemoState :=
  { s with count := 0 }

/-- Source: `setCount(prevCount => prevCount + 10)` -/
def incrementByTen (s : StateDemoState) : StateDemoState :=
  { s with count := s.count + 10 }

/-- Source: `setText(e.target.value)` -/
def handleTextChange (v : String) (s : StateDemoState) : StateDemoState :=
  { s with text := v }

/-- Source: `setIsOn(!isOn)` -/
def toggleSwitch (s : StateDemoState) : StateDemoState :=
  { s with isOn := !s.isOn }

/-- Source: `setUser({...user, name: newName})` -/
def updateUserName (newName : String) (s : StateDemoState) : StateDemoState :=
  { s with user := { s.user with name := newName } }

/-- Source: `addTodo`: return unchanged when the trimmed input is empty, otherwise
append `{ id: Date.now(), text: newTodo, completed: false }` and clear the
input.  `now` stands for the `Date.now()` clock reading. -/
def addTodo (now : Nat) (s : StateDemoState) : StateDemoState :=
  if jsTrim s.newTodo = "" then s
  else
    { s with todos := s.todos ++ [{ id := now, text := s.newTodo, completed := false }]
             newTodo := "" }

/-- Source: `setTodos(todos.map(todo => todo.id === id ? {...todo, completed: !todo.completed} : todo))` -/
def toggleTodo (id : Nat) (s : StateDemoState) : StateDemoState :=
  { s with todos := s.todos.map fun t =>
      if t.id = id then { t with completed := !t.completed } else t }

/-- Source: `setTodos(todos.filter(todo => todo.id !== id))` -/
def deleteTodo (id : Nat) (s : StateDemoState) : StateDemoState :=
  { s with todos := s.todos.filter fun t => t.id ≠ id }

/-- The rendered `Character count:` value, `{text.length}`. -/
def displayedCharCount (s : StateDemoState) : Nat :=
  s.text.length

end StateDemo

/-- A click on the `-1` or `+1` button of the counter card. -/
inductive CounterAction where
  | increment
  | decrement
  deriving Repr, DecidableEq

/-- Dispatch one counter button click to its handler; each handler reads
the state current at its invocation. -/
def applyCounterAction (s : StateDemoState) : CounterAction → StateDemoState
  | CounterAction.increment => StateDemo.incrementCount s
  | CounterAction.decrement => StateDemo.decrementCount s

/-- Run a sequence of counter button clicks from the initial state. -/
def runCounter (acts : List CounterAction) : StateDemoState :=
  acts.foldl applyCounterAction StateDemoState.init

lemma runCounter_general (acts : List CounterAction) :
    ∀ s : StateDemoState,
      (acts.foldl applyCounterAction s).count =
        s.count + (acts.count CounterAction.increment : Int) -
          (acts.count CounterAction.decrement : Int) := by
  induction acts with
  | nil => intro s; simp
  | cons a as ih =>
      intro s
      cases a <;>
        simp [List.foldl_cons, List.count_cons, ih, applyCounterAction,
          StateDemo.incrementCount, StateDemo.decrementCount] <;> ring

/-- C4: starting from the initial count 0, any interleaving of N increment
clicks and M decrement clicks leaves the displayed count equal to N − M. -/
theorem counter_value_eq_incs_sub_decs :
    ∀ acts : List CounterAction,
      (runCounter acts).count =
        (acts.count CounterAction.increment : Int) -
          (acts.count CounterAction.decrement : Int) := by
  intro acts
  simp [runCounter, runCounter_general, StateDemoState.init]

/-- Run a sequence of text-change events from the initial state. -/
def runTextEvents (vs : List String) : StateDemoState :=
  vs.foldl (fun s v => StateDemo.handleTextChange v s) StateDemoState.init

lemma runTextEvents_general (vs : List String) :
    ∀ s : StateDemoState,
      (vs.foldl (fun s v => StateDemo.handleTextChange v s) s).text =
        vs.getLastD s.text := by
  induction vs with
  | nil => intro s; rfl
  | cons v vs ih =>
      intro s
      rw [List.foldl_cons, ih, List.getLastD_cons]
      rfl

/-- C5: after any sequence of text-change events, the displayed character
count equals the string length of the current text value (which is the
last entered value); for the initial empty string it is 0. -/
theorem char_count_matches_text_length :
    ∀ vs : List String,
      StateDemo.displayedCharCount (runTextEvents vs) =
          (runTextEvents vs).text.length ∧
        (runTextEvents vs).text = vs.getLastD "" ∧
        StateDemo.displayedCharCount StateDemoState.init = 0 := by
  intro vs
  refine ⟨rfl, ?_, rfl⟩
  simp [runTextEvents, runTextEvents_general, StateDemoState.init]

/-- C6: each activation of `toggleSwitch` inverts the previous boolean
state, and applying it twice returns the entire state to its original
value. -/
theorem toggle_involution :
    ∀ s : StateDemoState,
      (StateDemo.toggleSwitch s).isOn = !s.isOn ∧
        StateDemo.toggleSwitch (StateDemo.toggleSwitch s) = s := by
  intro s
  exact ⟨rfl, by simp [StateDemo.toggleSwitch]⟩

/-! ## KeyDemo (VirtualDOMDemo.jsx)

A list of `{ id, text, color }` records with add/remove, using `Date.now()`
as the new identifier just like `StateDemo.addTodo`. -/

/-- A list item of `KeyDemo`: `{ id, text, color }`. -/
structure Item where
  id : Nat
  text : String
  color : String
  deriving Repr, DecidableEq

namespace KeyDemo

/-- The `useState` initial list of `KeyDemo`. -/
def initialItems : List Item :=
  [{ id := 1, text := "Item 1", color := "#e3f2fd" },
   { id := 2, text := "Item 2", color := "#f3e5f5" },
   { id := 3, text := "Item 3", color := "#e8f5e9" }]

/-- Source: `addItem`: append `{ id: Date.now(), text: Item <n+1>, color: random }`.
`now` is the `Date.now()` reading and `c` the randomly generated color. -/
def addItem (now : Nat) (c : String) (items : List Item) : List Item :=
  items ++ [{ id := now, text := "Item " ++ toString (items.length + 1), color := c }]

/-- Source: `setItems(items.filter(item => item.id !== id))` -/
def removeItem (id : Nat) (items : List Item) : List Item :=
  items.filter fun i => i.id ≠ id

end KeyDemo

lemma filter_middle_decomp {α : Type} (p : α → Bool) (l₁ l₂ : List α) (t : α)
    (ht : p t = false) (h₁ : ∀ u ∈ l₁, p u = true) (h₂ : ∀ u ∈ l₂, p u = true) :
    (l₁ ++ t :: l₂).filter p = l₁ ++ l₂ := by
  rw [List.filter_append, List.filter_cons_of_neg, List.filter_eq_self.mpr h₁,
    List.filter_eq_self.mpr h₂]
  simp [ht]

/-- C3 counterexample: the new item's identifier is `Date.now()`, which the
code never checks against existing identifiers.  When the clock reading
collides with an identifier already in the list (here both are 5), the
add action is non-empty yet the appended identifier is not unique. -/
theorem addTodo_duplicate_id_cx :
    ({ StateDemoState.init with
        todos := [{ id := 5, text := "a", completed := false }],
        newTodo := "b" } : StateDemoState).newTodo ≠ "" ∧  -- non-empty add input
      jsTrim "b" ≠ "" ∧
      (StateDemo.addTodo 5
          { StateDemoState.init with
            todos := [{ id := 5, text := "a", completed := false }],
            newTodo := "b" }).todos.map Todo.id = [5, 5] ∧
      5 ∈ ({ StateDemoState.init with
              todos := [{ id := 5, text := "a", completed := false }],
              newTodo := "b" } : StateDemoState).todos.map Todo.id := by
  refine ⟨by decide, ?_, by decide⟩
  decide

/-- C3 (amended): provided the clock reading does not collide with an
identifier already in the list, a non-empty add appends exactly one record
carrying that clock reading as its identifier; and removing by an
identifier that occurs exactly once deletes exactly that record, leaving
all other records in order.  The same holds for `KeyDemo`'s item list. -/
theorem add_remove_todo_amended :
    (∀ (s : StateDemoState) (now : Nat),
        jsTrim s.newTodo ≠ "" → now ∉ s.todos.map Todo.id →
        (StateDemo.addTodo now s).todos =
            s.todos ++ [{ id := now, text := s.newTodo, completed := false }] ∧
          (StateDemo.addTodo now s).todos.length = s.todos.length + 1) ∧
    (∀ (s : StateDemoState) (id : Nat) (l₁ l₂ : List Todo) (t : Todo),
        s.todos = l₁ ++ t :: l₂ → t.id = id →
        (∀ u ∈ l₁, u.id ≠ id) → (∀ u ∈ l₂, u.id ≠ id) →
        (StateDemo.deleteTodo id s).todos = l₁ ++ l₂ ∧
          (StateDemo.deleteTodo id s).todos.length + 1 = s.todos.length) ∧
    (∀ (items : List Item) (now : Nat) (c : String),
        now ∉ items.map Item.id →
        (KeyDemo.addItem now c items).length = items.length + 1 ∧
          (KeyDemo.addItem now c items).map Item.id = items.map Item.id ++ [now]) ∧
    (∀ (items : List Item) (id : Nat) (l₁ l₂ : List Item) (t : Item),
        items = l₁ ++ t :: l₂ → t.id = id →
        (∀ u ∈ l₁, u.id ≠ id) → (∀ u ∈ l₂, u.id ≠ id) →
        KeyDemo.removeItem id items = l₁ ++ l₂) := by
  refine ⟨?_, ?_, ?_, ?_⟩
  · intro s now hne _
    rw [StateDemo.addTodo, if_neg hne]
    exact ⟨rfl, by simp⟩
  · intro s id l₁ l₂ t hs ht h₁ h₂
    have hfilter : (StateDemo.deleteTodo id s).todos = l₁ ++ l₂ := by
      show s.todos.filter _ = l₁ ++ l₂
      rw [hs]
      exact filter_middle_decomp _ l₁ l₂ t (by simp [ht])
        (fun u hu => by simp [h₁ u hu]) (fun u hu => by simp [h₂ u hu])
    refine ⟨hfilter, ?_⟩
    rw [hfilter, hs]
    simp
    omega
  · intro items now c _
    exact ⟨by simp [KeyDemo.addItem], by simp [KeyDemo.addItem]⟩
  · intro items id l₁ l₂ t hs ht h₁ h₂
    show items.filter _ = l₁ ++ l₂
    rw [hs]
    exact filter_middle_decomp _ l₁ l₂ t (by simp [ht])
      (fun u hu => by simp [h₁ u hu]) (fun u hu => by simp [h₂ u hu])

/-- Witness for the amended C3 theorem at concrete lists. -/
theorem add_remove_todo_amended_witness :
    (StateDemo.addTodo 99 { StateDemoState.init with newTodo := "buy" }).todos.length =
        ({ StateDemoState.init with newTodo := "buy" } : StateDemoState).todos.length + 1 ∧
      (StateDemo.deleteTodo 2 StateDemoState.init).todos =
        [{ id := 1, text := "Learn React", completed := true }] ++ [] ∧
      (KeyDemo.addItem 7 "c" KeyDemo.initialItems).length = KeyDemo.initialItems.length + 1 ∧
      KeyDemo.removeItem 2 KeyDemo.initialItems =
        [{ id := 1, text := "Item 1", color := "#e3f2fd" }] ++
          [{ id := 3, text := "Item 3", color := "#e8f5e9" }] :=
  ⟨(add_remove_todo_amended.1 _ 99 (by decide) (by decide)).2,
   (add_remove_todo_amended.2.1 StateDemoState.init 2
      [{ id := 1, text := "Learn React", completed := true }] []
      { id := 2, text := "Master State", completed := false }
      rfl rfl (by decide) (by decide)).1,
   (add_remove_todo_amended.2.2.1 KeyDemo.initialItems 7 "c" (by decide)).1,
   add_remove_todo_amended.2.2.2 KeyDemo.initialItems 2
      [{ id := 1, text := "Item 1", color := "#e3f2fd" }]
      [{ id := 3, text := "Item 3", color := "#e8f5e9" }]
      { id := 2, text := "Item 2", color := "#f3e5f5" }
      rfl rfl (by decide) (by decide)⟩

/-- C8: toggling an identifier present in the todo list keeps the length
and order, and at every position the record is unchanged unless it carries
the toggled identifier, in which case exactly its completion flag is
inverted (id and text kept). -/
theorem toggleTodo_flips_only_target :
    ∀ (s : StateDemoState) (id i : Nat) (t : Todo),
      id ∈ s.todos.map Todo.id → s.todos[i]? = some t →
      (StateDemo.toggleTodo id s).todos.length = s.todos.length ∧
        (StateDemo.toggleTodo id s).todos[i]? =
          some (if t.id = id then
                  { id := t.id, text := t.text, completed := !t.completed }
                else t) := by
  intro s id i t _ hget
  refine ⟨by simp [StateDemo.toggleTodo], ?_⟩
  show (s.todos.map _)[i]? = _
  rw [List.getElem?_map, hget]
  rfl

/-- Witness for C8 at the initial todo list, toggling id 2 at position 1. -/
theorem toggleTodo_flips_only_target_witness :
    2 ∈ StateDemoState.init.todos.map Todo.id ∧
      StateDemoState.init.todos[1]? =
        some { id := 2, text := "Master State", completed := false } ∧
      ((StateDemo.toggleTodo 2 StateDemoState.init).todos.length =
          StateDemoState.init.todos.length ∧
        (StateDemo.toggleTodo 2 StateDemoState.init).todos[1]? =
          some (if ({ id := 2, text := "Master State", completed := false } : Todo).id = 2 then
                  { id := 2, text := "Master State", completed := !false }
                else { id := 2, text := "Master State", completed := false })) :=
  ⟨by decide, by decide,
   toggleTodo_flips_only_target StateDemoState.init 2 1
     { id := 2, text := "Master State", completed := false } (by decide) (by decide)⟩

/-! ## CommonPatternsExample (useState common-patterns demo) -/

/-- A todo record of `CommonPatternsExample`: `{ id, text, done }`. -/
structure CPTodo where
  id : Nat
  text : String
  done : Bool
  deriving Repr, DecidableEq

/-- Local state of `CommonPatternsExample`: the todo list and the input. -/
structure CPState where
  todos : List CPTodo
  input : String
  deriving Repr, DecidableEq

namespace CommonPatterns

/-- Source: `addTodo`: only when `input.trim()` is truthy (non-empty), append
`{ id: Date.now(), text: input, done: false }` and clear the input. -/
def addTodo (now : Nat) (s : CPState) : CPState :=
  if jsTrim s.input = "" then s
  else { todos := s.todos ++ [{ id := now, text := s.input, done := false }], input := "" }

end CommonPatterns

/-- C9: in both todo demos, invoking the add action with an empty or
whitespace-only input leaves the entire component state unchanged: nothing
is appended and the input itself is not cleared. -/
theorem addTodo_blank_input_noop :
    ∀ now : Nat,
      (∀ s : StateDemoState, jsTrim s.newTodo = "" → StateDemo.addTodo now s = s) ∧
      (∀ s : CPState, jsTrim s.input = "" → CommonPatterns.addTodo now s = s) := by
  intro now
  exact ⟨fun s h => by simp [StateDemo.addTodo, h],
    fun s h => by simp [CommonPatterns.addTodo, h]⟩

/-- Witness for C9 with a whitespace-only input in both demos. -/
theorem addTodo_blank_input_noop_witness :
    (jsTrim ({ StateDemoState.init with newTodo := "  " } : StateDemoState).newTodo = "" ∧
      StateDemo.addTodo 7 { StateDemoState.init with newTodo := "  " } =
        { StateDemoState.init with newTodo := "  " }) ∧
      (jsTrim ({ todos := [], input := " " } : CPState).input = "" ∧
        CommonPatterns.addTodo 7 { todos := [], input := " " } =
          { todos := [], input := " " }) :=
  ⟨⟨by decide, (addTodo_blank_input_noop 7).1 _ (by decide)⟩,
   ⟨by decide, (addTodo_blank_input_noop 7).2 _ (by decide)⟩⟩

/-! ## ComplexObjectStateExample (complex-object state demo) -/

/-- Source: `user.address`: `{ street, city, zipCode }`. -/
structure Address where
  street : String
  city : String
  zipCode : String
  deriving Repr, DecidableEq

/-- Source: `user.preferences`: `{ theme, notifications }`. -/
structure Preferences where
  theme : String
  notifications : Bool
  deriving Repr, DecidableEq

/-- The nested user object of `ComplexObjectStateExample`. -/
structure ComplexUser where
  name : String
  email : String
  address : Address
  preferences : Preferences
  deriving Repr, DecidableEq

namespace ComplexObject

/-- The `useState` initialiser of `ComplexObjectStateExample`. -/
def initialUser : ComplexUser :=
  { name := "John Doe"
    email := "john@example.com"
    address := { street := "123 Main St", city := "New York", zipCode := "10001" }
    preferences := { theme := "light", notifications := true } }

/-- Source: `setUser({...user, name: e.target.value})` -/
def updateName (v : String) (u : ComplexUser) : ComplexUser :=
  { u with name := v }

/-- Source: `setUser({...user, address: {...user.address, city: e.target.value}})` -/
def updateCity (v : String) (u : ComplexUser) : ComplexUser :=
  { u with address := { u.address with city := v } }

/-- Source: `setUser({...user, preferences: {...user.preferences, notifications: !user.preferences.notifications}})` -/
def toggleNotifications (u : ComplexUser) : ComplexUser :=
  { u with preferences :=
      { u.preferences with notifications := !u.preferences.notifications } }

end ComplexObject

/-- C7: for every user state, `updateCity` changes only the city (name,
email, the other address fields and the whole preferences object are kept),
and `toggleNotifications` flips only the notifications flag (name, email,
the whole address and the theme are kept). -/
theorem nested_update_preserves_siblings :
    ∀ (u : ComplexUser) (v : String),
      ((ComplexObject.updateCity v u).name = u.name ∧
        (ComplexObject.updateCity v u).email = u.email ∧
        (ComplexObject.updateCity v u).address.street = u.address.street ∧
        (ComplexObject.updateCity v u).address.zipCode = u.address.zipCode ∧
        (ComplexObject.updateCity v u).preferences = u.preferences ∧
        (ComplexObject.updateCity v u).address.city = v) ∧
      ((ComplexObject.toggleNotifications u).name = u.name ∧
        (ComplexObject.toggleNotifications u).email = u.email ∧
        (ComplexObject.toggleNotifications u).address = u.address ∧
        (ComplexObject.toggleNotifications u).preferences.theme = u.preferences.theme ∧
        (ComplexObject.toggleNotifications u).preferences.notifications =
          !u.preferences.notifications) :=
  fun _ _ => ⟨⟨rfl, rfl, rfl, rfl, rfl, rfl⟩, rfl, rfl, rfl, rfl, rfl⟩

/-! ## TimerExample (useRef timer demo)

`seconds` and `isRunning` live in `useState`, the `setInterval` handle in
`intervalRef`.  We additionally track the set of live intervals (`active`,
in creation order) and a fresh-handle counter, so that "at most one
interval is active" is statable. -/

/-- State of `TimerExample` plus the bookkeeping of live intervals. -/
structure TimerState where
  seconds : Nat
  isRunning : Bool
  intervalRef : Option Nat
  active : List Nat
  nextHandle : Nat
  deriving Repr, DecidableEq

namespace TimerDemo

/-- Source: `useState(0)`, `useState(false)`, `useRef(null)`; no interval yet. -/
def init : TimerState :=
  { seconds := 0, isRunning := false, intervalRef := none, active := [], nextHandle := 0 }

/-- Source: `startTimer`: guarded by `if (!isRunning)`; sets `isRunning`, creates a
fresh interval with `setInterval` and stores its handle in the ref. -/
def startTimer (s : TimerState) : TimerState :=
  if s.isRunning then s
  else
    { s with isRunning := true
             intervalRef := some s.nextHandle
             active := s.active ++ [s.nextHandle]
             nextHandle := s.nextHandle + 1 }

/-- Source: `stopTimer`: `setIsRunning(false)` and `clearInterval(intervalRef.current)`
(a no-op when the ref still holds null). -/
def stopTimer (s : TimerState) : TimerState :=
  { s with isRunning := false
           active :=
             match s.intervalRef with
             | some h => s.active.filter fun x => x ≠ h
             | none => s.active }

/-- Source: `resetTimer`: `stopTimer()` then `setSeconds(0)`. -/
def resetTimer (s : TimerState) : TimerState :=
  { stopTimer s with seconds := 0 }

/-- One firing of the interval callback: `setSeconds(s => s + 1)`, possible
only while some interval is live. -/
def tickTimer (s : TimerState) : TimerState :=
  if s.active.isEmpty then s else { s with seconds := s.seconds + 1 }

/-- The user events and timer firings that drive `TimerExample`. -/
inductive TimerAction where
  | start
  | stop
  | reset
  | tick
  deriving Repr, DecidableEq

/-- Dispatch one action to its handler. -/
def step (s : TimerState) : TimerAction → TimerState
  | TimerAction.start => startTimer s
  | TimerAction.stop => stopTimer s
  | TimerAction.reset => resetTimer s
  | TimerAction.tick => tickTimer s

/-- Run a sequence of actions from the initial state. -/
def run (acts : List TimerAction) : TimerState :=
  acts.foldl step init

/-- Invariant: while running, the ref holds the handle of the single live
interval; while stopped, no interval is live. -/
def TimerInv (s : TimerState) : Prop :=
  (s.isRunning = true → ∃ h, s.intervalRef = some h ∧ s.active = [h]) ∧
    (s.isRunning = false → s.active = [])

lemma stopTimer_inv (s : TimerState) (h : TimerInv s) : TimerInv (stopTimer s) := by
  obtain ⟨h₁, h₂⟩ := h
  constructor
  · intro habs
    simp [stopTimer] at habs
  · intro _
    cases hb : s.isRunning with
    | true =>
        obtain ⟨h', href, hact⟩ := h₁ hb
        simp [stopTimer, href, hact]
    | false =>
        have hact : s.active = [] := h₂ hb
        cases hi : s.intervalRef <;> simp [stopTimer, hi, hact]

lemma step_inv (s : TimerState) (a : TimerAction) (h : TimerInv s) :
    TimerInv (step s a) := by
  obtain ⟨h₁, h₂⟩ := h
  cases a with
  | start =>
      show TimerInv (startTimer s)
      rw [startTimer]
      cases hb : s.isRunning with
      | true =>
          rw [if_pos rfl]
          exact ⟨fun _ => h₁ hb, fun habs => by simp [hb] at habs⟩
      | false =>
          rw [if_neg (by decide)]
          refine ⟨fun _ => ⟨s.nextHandle, rfl, ?_⟩, fun habs => by simp at habs⟩
          simp [h₂ hb]
  | stop => exact stopTimer_inv s ⟨h₁, h₂⟩
  | reset => exact stopTimer_inv s ⟨h₁, h₂⟩
  | tick =>
      show TimerInv (tickTimer s)
      rw [tickTimer]
      split
      · exact ⟨h₁, h₂⟩
      · exact ⟨h₁, h₂⟩

lemma foldl_step_inv (acts : List TimerAction) :
    ∀ s : TimerState, TimerInv s → TimerInv (acts.foldl step s) := by
  induction acts with
  | nil => intro s h; exact h
  | cons a as ih => intro s h; exact ih _ (step_inv s a h)

lemma run_inv (acts : List TimerAction) : TimerInv (run acts) :=
  foldl_step_inv acts init ⟨fun habs => by simp [init] at habs, fun _ => rfl⟩

end TimerDemo

/-- C10: `startTimer` while the timer is already running is a no-op (in
particular the stored interval handle is not overwritten), and from the
initial state every sequence of start/stop/reset/tick events reaches a
state with at most one live interval. -/
theorem timer_start_noop_single_interval :
    (∀ s : TimerState, s.isRunning = true →
        TimerDemo.startTimer s = s ∧
          (TimerDemo.startTimer s).intervalRef = s.intervalRef) ∧
      ∀ acts : List TimerDemo.TimerAction,
        (TimerDemo.run acts).active.length ≤ 1 := by
  constructor
  · intro s hr
    have hid : TimerDemo.startTimer s = s := by
      rw [TimerDemo.startTimer, if_pos hr]
    exact ⟨hid, by rw [hid]⟩
  · intro acts
    obtain ⟨h₁, h₂⟩ := TimerDemo.run_inv acts
    cases hb : (TimerDemo.run acts).isRunning with
    | true =>
        obtain ⟨h', _, hact⟩ := h₁ hb
        simp [hact]
    | false => simp [h₂ hb]

/-- Witness for C10 on a concrete running state and a concrete event
sequence containing a redundant second start. -/
theorem timer_start_noop_single_interval_witness :
    ((⟨3, true, some 0, [0], 1⟩ : TimerState).isRunning = true ∧
        (TimerDemo.startTimer ⟨3, true, some 0, [0], 1⟩ = ⟨3, true, some 0, [0], 1⟩ ∧
          (TimerDemo.startTimer ⟨3, true, some 0, [0], 1⟩).intervalRef =
            (⟨3, true, some 0, [0], 1⟩ : TimerState).intervalRef)) ∧
      (TimerDemo.run [TimerDemo.TimerAction.start, TimerDemo.TimerAction.start,
          TimerDemo.TimerAction.tick, TimerDemo.TimerAction.stop,
          TimerDemo.TimerAction.start]).active.length ≤ 1 :=
  ⟨⟨rfl, timer_start_noop_single_interval.1 ⟨3, true, some 0, [0], 1⟩ rfl⟩,
   timer_start_noop_single_interval.2 _⟩

end TeachingReact
